import Mathlib

/-!
Shallow embedding of the similarity-search core of the progress-tracker
backend (src/services/aiService.js).  JavaScript numbers are idealised as
real numbers; the one place where the idealisation would hide behaviour is
division by a zero denominator, which in JavaScript produces `NaN` (the
numerator is necessarily `0` there, in exact arithmetic).  We model a
possibly-`NaN` result as `Option ℝ`, with `none` standing for `NaN`.

`Array.prototype.sort` (ES2019+) is a stable sort driven by the comparator
`(a, b) => b.similarity - a.similarity`; the ECMAScript `SortCompare`
operation maps a `NaN` comparator result to `+0`, i.e. a tie.  A stable
sort with respect to the relation "`a` may stay in front of `b`", namely
`b.similarity ≤ a.similarity` (with `NaN` comparing as a tie), is modelled
by `List.insertionSort` of that relation.
-/

set_option maxHeartbeats 1000000

noncomputable section

/-- The loop accumulator `dotProduct` of `cosineSimilarity`
(src/services/aiService.js lines 240-248 and 493-501): the sum of the
pairwise products of the entries.  The loop runs over the common length of
the two vectors (they are only compared after the equal-length guard). -/
def dotProduct (a b : List ℝ) : ℝ :=
  (List.zipWith (fun x y => x * y) a b).sum

/-- The loop accumulators `normA` / `normB` of `cosineSimilarity`: the sum
of the squares of the entries (the squared Euclidean norm). -/
def sumSq (a : List ℝ) : ℝ :=
  (a.map (fun x => x * x)).sum

/-- A stored bug document (src/models/Bug.js): descriptive payload plus an
optional embedding vector (`embedding: [Number]`; it may be absent or
empty). -/
structure StoredBug where
  title : String
  description : String
  solution : String
  tags : List String
  embedding : Option (List ℝ)

namespace AIService

/-- `AIService.cosineSimilarity` (src/services/aiService.js lines 237-252).
Guard: `if (!vecA || !vecB || vecA.length !== vecB.length) return 0`;
then `denominator = Math.sqrt(normA) * Math.sqrt(normB)` and
`denominator === 0 ? 0 : dotProduct / denominator`.  The result is always
an actual number, so the return type is `ℝ`. -/
def cosineSimilarity (vecA vecB : Option (List ℝ)) : ℝ :=
  match vecA, vecB with
  | some a, some b =>
    if a.length ≠ b.length then 0
    else
      let den := Real.sqrt (sumSq a) * Real.sqrt (sumSq b)
      if den = 0 then 0 else dotProduct a b / den
  | _, _ => 0

end AIService

namespace GCPService

/-- `GCPService.cosineSimilarity` (src/services/aiService.js lines
490-504).  Same guard as the `AIService` variant, but the final division
`dotProduct / (Math.sqrt(normA) * Math.sqrt(normB))` is NOT guarded
against a zero denominator: when the denominator is `0` the numerator is
`0` as well (a zero norm forces every product in the dot product to be
zero, in exact arithmetic), and JavaScript evaluates `0 / 0` to `NaN`.
`none` models that `NaN` outcome. -/
def cosineSimilarity (vecA vecB : Option (List ℝ)) : Option ℝ :=
  match vecA, vecB with
  | some a, some b =>
    if a.length ≠ b.length then some 0
    else
      let den := Real.sqrt (sumSq a) * Real.sqrt (sumSq b)
      if den = 0 then none else some (dotProduct a b / den)
  | _, _ => some 0

end GCPService

namespace AIService

/-- The comparator of `AIService.searchSimilarBugs`,
`(a, b) => b.similarity - a.similarity`, as the relation "`a` may stay in
front of `b`": the comparator result is `≤ 0` iff `b.similarity ≤
a.similarity`. -/
def simGE (a b : StoredBug × ℝ) : Prop := b.2 ≤ a.2

instance : DecidableRel simGE := fun a b => inferInstanceAs (Decidable (b.2 ≤ a.2))

instance : IsTotal (StoredBug × ℝ) simGE := ⟨fun a b => le_total b.2 a.2⟩

instance : IsTrans (StoredBug × ℝ) simGE := ⟨fun _ _ _ hab hbc => le_trans hbc hab⟩

/-- The body of the `bugEmbeddings.map` callback of
`AIService.searchSimilarBugs` (src/services/aiService.js lines 84-89):
a candidate lacking an embedding (absent or empty) scores `0`, otherwise
its cosine similarity with the query embedding. -/
def scoreBug (q : List ℝ) (bug : StoredBug) : StoredBug × ℝ :=
  match bug.embedding with
  | none => (bug, 0)
  | some e =>
    if e.length = 0 then (bug, 0) else (bug, cosineSimilarity (some q) (some e))

/-- `AIService.searchSimilarBugs` (src/services/aiService.js lines 75-101),
with the external embedding call already performed: `queryEmbedding` is
the vector the provider returned (`none` models an absent value, `some []`
the empty fallback vector).  Early return on an absent or empty query
embedding; each candidate is scored by `scoreBug`; then
`.sort((a, b) => b.similarity - a.similarity).slice(0, 3)
.filter(item => item.similarity > 0.3)`. -/
def searchSimilarBugs (queryEmbedding : Option (List ℝ)) (bugEmbeddings : List StoredBug) :
    List (StoredBug × ℝ) :=
  match queryEmbedding with
  | none => []
  | some q =>
    if q.length = 0 then []
    else
      (((bugEmbeddings.map (scoreBug q)).insertionSort simGE).take 3).filter
        fun item => decide ((0.3 : ℝ) < item.2)

end AIService

namespace GCPService

/-- The comparator of `GCPService.searchSimilarBugs` on possibly-`NaN`
similarity keys: for two actual numbers the comparator result `b - a` is
`≤ 0` iff `b ≤ a`; when either key is `NaN` the comparator returns `NaN`,
which ECMAScript `SortCompare` turns into `+0`, a tie, so either element
may stay in front. -/
def simGEOpt (a b : StoredBug × Option ℝ) : Prop :=
  match a.2, b.2 with
  | some x, some y => y ≤ x
  | _, _ => True

noncomputable instance : DecidableRel simGEOpt := fun _ _ => Classical.propDecidable _

/-- The body of the `bugEmbeddings.map` callback of
`GCPService.searchSimilarBugs` (src/services/aiService.js lines 348-353):
a candidate lacking an embedding scores the number `0`, otherwise its
(possibly-`NaN`) cosine similarity with the query embedding. -/
def scoreBug (queryEmbedding : Option (List ℝ)) (bug : StoredBug) : StoredBug × Option ℝ :=
  match bug.embedding with
  | none => (bug, some 0)
  | some e =>
    if e.length = 0 then (bug, some (0 : ℝ))
    else (bug, cosineSimilarity queryEmbedding (some e))

/-- `GCPService.searchSimilarBugs` (src/services/aiService.js lines
343-364).  Unlike the `AIService` variant there is no early return on an
empty query embedding, and no relevance filter: the query embedding is
passed straight to `cosineSimilarity` (whose guard handles the mismatch),
and the result is `.sort((a, b) => b.similarity - a.similarity)
.slice(0, 3)`. -/
def searchSimilarBugs (queryEmbedding : Option (List ℝ)) (bugEmbeddings : List StoredBug) :
    List (StoredBug × Option ℝ) :=
  ((bugEmbeddings.map (scoreBug queryEmbedding)).insertionSort simGEOpt).take 3

end GCPService

/-- One entry of the textual context block built inside
`AIService.generateBugSolution` (src/services/aiService.js lines 108-115)
and, with identical code, `GCPService.generateBugSolution` (lines
371-378):
`` `Bug ${idx + 1} (Similarity: ${(item.similarity * 100).toFixed(1)}%):
Title: ...` ``.
`fmt` abstracts the host formatting `x => (x * 100).toFixed(1)` of the
similarity into a percentage string; it is kept polymorphic in the
similarity key so that both service variants are covered. -/
def buildContextEntry {κ : Type} (fmt : κ → String) (idx : Nat) (item : StoredBug × κ) : String :=
  "Bug " ++ toString (idx + 1) ++ " (Similarity: " ++ fmt item.2 ++ "%):" ++
    "\nTitle: " ++ item.1.title ++
    "\nDescription: " ++ item.1.description ++
    "\nSolution: " ++ item.1.solution ++
    "\nTags: " ++ String.intercalate ", " item.1.tags ++
    "\n---"

/-- The list of context entries, one per ranked match, in input order:
`similarBugs.map((item, idx) => ...)`. -/
def buildContextEntries {κ : Type} (fmt : κ → String) (similarBugs : List (StoredBug × κ)) :
    List String :=
  similarBugs.enum.map fun p => buildContextEntry fmt p.1 p.2

/-- The full context block: the entries joined by `'\n\n'`. -/
def buildContext {κ : Type} (fmt : κ → String) (similarBugs : List (StoredBug × κ)) : String :=
  String.intercalate "\n\n" (buildContextEntries fmt similarBugs)

/-! ### Concrete sample data for the scenarios of the spec -/

/-- A sample stored bug with the given title and embedding. -/
def mkBug (t : String) (e : Option (List ℝ)) : StoredBug :=
  ⟨t, "desc", "sol", [], e⟩

/-- A unit vector whose cosine similarity against the query `[1, 0]` is
exactly `c` (for `c * c ≤ 1`). -/
def embC (c : ℝ) : List ℝ :=
  [c, Real.sqrt (1 - c * c)]

/-- The five candidates of the spec's concrete scenario, with similarity
scores `0.9, 0.8, 0.35, 0.2, 0.1` against the query embedding `[1, 0]`. -/
def bug09 : StoredBug := mkBug "b09" (some (embC (9 / 10)))

def bug08 : StoredBug := mkBug "b08" (some (embC (8 / 10)))

def bug035 : StoredBug := mkBug "b035" (some (embC (35 / 100)))

def bug02 : StoredBug := mkBug "b02" (some (embC (2 / 10)))

def bug01 : StoredBug := mkBug "b01" (some (embC (1 / 10)))

def bugsFive : List StoredBug := [bug09, bug08, bug035, bug02, bug01]

/-- A one-dimensional candidate with similarity `1` against the query
embedding `[1]`. -/
def bugUnit : StoredBug := mkBug "unit" (some [1])

/-- A candidate whose embedding has zero norm: against any length-2 query
the GCPService similarity is `NaN`. -/
def bugZeroNorm : StoredBug := mkBug "zero" (some [0, 0])

/-- A candidate with similarity `3 / 5` against the query `[1, 0]`. -/
def bugMid : StoredBug := mkBug "mid" (some [3, 4])

/-- A candidate with similarity `1` against the query `[1, 0]`. -/
def bugTop : StoredBug := mkBug "top" (some [1, 0])

/-! ### Generic facts about the stable sort -/

section Stability

variable {α : Type*} {κ : Type*} [DecidableEq κ]
variable (r : α → α → Prop) [DecidableRel r] (k : α → κ)

/-- Inserting an element whose key is `v` puts it in front of every other
element with key `v` already in the list, provided an element may only be
refused its place in front of another when their keys differ. -/
lemma filter_key_orderedInsert_pos (hneg : ∀ a b, ¬ r a b → k a ≠ k b) (v : κ) (x : α)
    (hx : k x = v) :
    ∀ l : List α, (l.orderedInsert r x).filter (fun a => k a = v) =
      x :: l.filter (fun a => k a = v) := by
  intro l
  induction l with
  | nil => simp [hx]
  | cons b l ih =>
    by_cases hrb : r x b
    · simp only [List.orderedInsert, if_pos hrb, List.filter_cons]
      simp [hx]
    · have hb : k b ≠ v := by
        intro hbv
        exact hneg x b hrb (hbv ▸ hx)
      simp only [List.orderedInsert, if_neg hrb, List.filter_cons]
      simp only [decide_eq_true_eq]
      rw [if_neg hb, if_neg hb, ih]

/-- Inserting an element whose key is not `v` leaves the key-`v`
subsequence unchanged. -/
lemma filter_key_orderedInsert_neg (v : κ) (x : α) (hx : k x ≠ v) :
    ∀ l : List α, (l.orderedInsert r x).filter (fun a => k a = v) =
      l.filter (fun a => k a = v) := by
  intro l
  induction l with
  | nil => simp [hx]
  | cons b l ih =>
    by_cases hrb : r x b
    · simp only [List.orderedInsert, if_pos hrb, List.filter_cons]
      simp only [decide_eq_true_eq]
      rw [if_neg hx]
    · simp only [List.orderedInsert, if_neg hrb, List.filter_cons, ih]

/-- Stability of the modelled sort: for every key value `v`, sorting does
not change the subsequence of elements whose key is `v` — provided ties on
the key always allow the earlier element to stay in front (`hneg`). -/
lemma filter_key_insertionSort (hneg : ∀ a b, ¬ r a b → k a ≠ k b) (v : κ) :
    ∀ l : List α, (l.insertionSort r).filter (fun a => k a = v) =
      l.filter (fun a => k a = v) := by
  intro l
  induction l with
  | nil => rfl
  | cons x l ih =>
    by_cases hx : k x = v
    · rw [List.insertionSort, filter_key_orderedInsert_pos r k hneg v x hx, ih,
        List.filter_cons]
      simp [hx]
    · rw [List.insertionSort, filter_key_orderedInsert_neg r k v x hx, ih, List.filter_cons]
      simp [hx]

/-- A list on which the relation always holds is left unchanged by the
sort (all comparisons are ties). -/
lemma insertionSort_eq_self_of_total (l : List α) (h : ∀ a ∈ l, ∀ b ∈ l, r a b) :
    l.insertionSort r = l :=
  List.Sorted.insertionSort_eq (List.pairwise_of_forall_mem_list h)

end Stability

/-! ### Basic facts about the numeric helpers -/

lemma sumSq_nonneg (a : List ℝ) : 0 ≤ sumSq a := by
  refine List.sum_nonneg ?_
  intro x hx
  rcases List.mem_map.1 hx with ⟨y, _, rfl⟩
  exact mul_self_nonneg y

lemma dotProduct_comm (a b : List ℝ) : dotProduct a b = dotProduct b a := by
  unfold dotProduct
  rw [List.zipWith_comm]
  simp [mul_comm]

lemma dotProduct_cons (x y : ℝ) (xs ys : List ℝ) :
    dotProduct (x :: xs) (y :: ys) = x * y + dotProduct xs ys := by
  simp [dotProduct]

lemma sumSq_cons (x : ℝ) (xs : List ℝ) : sumSq (x :: xs) = x * x + sumSq xs := by
  simp [sumSq]

/-- The inductive step of the Cauchy-Schwarz inequality. -/
lemma cs_step (x y d A B : ℝ) (hA : 0 ≤ A) (hB : 0 ≤ B) (hd : d ^ 2 ≤ A * B) :
    (x * y + d) ^ 2 ≤ (x * x + A) * (y * y + B) := by
  have key : 0 ≤ x * x * B + A * (y * y) - 2 * (x * y) * d := by
    rcases le_or_lt (2 * (x * y) * d) 0 with h | h
    · nlinarith [mul_nonneg (mul_nonneg (mul_self_nonneg x) hB) one_pos.le,
        mul_nonneg hA (mul_self_nonneg y), mul_nonneg (mul_self_nonneg x) hB]
    · have hP : 0 ≤ x * x * B + A * (y * y) :=
        add_nonneg (mul_nonneg (mul_self_nonneg x) hB) (mul_nonneg hA (mul_self_nonneg y))
      have hsq : (2 * (x * y) * d) ^ 2 ≤ (x * x * B + A * (y * y)) ^ 2 := by
        nlinarith [sq_nonneg (x * x * B - A * (y * y)), sq_nonneg (x * y),
          mul_nonneg (sq_nonneg (x * y)) (sub_nonneg.2 hd)]
      nlinarith [hsq, hP, h]
  nlinarith [key, hd]

/-- Cauchy-Schwarz for the list dot product:
`(dotProduct a b)^2 ≤ sumSq a * sumSq b`. -/
lemma dotProduct_sq_le (a : List ℝ) : ∀ b : List ℝ,
    (dotProduct a b) ^ 2 ≤ sumSq a * sumSq b := by
  induction a with
  | nil =>
    intro b
    simp [dotProduct, sumSq]
  | cons x xs ih =>
    intro b
    cases b with
    | nil =>
      simp [dotProduct, sumSq]
    | cons y ys =>
      rw [dotProduct_cons, sumSq_cons, sumSq_cons]
      exact cs_step x y (dotProduct xs ys) (sumSq xs) (sumSq ys)
        (sumSq_nonneg xs) (sumSq_nonneg ys) (ih ys)

/-- Cauchy-Schwarz with the norms: the dot product never exceeds the
product of the Euclidean norms in absolute value. -/
lemma abs_dotProduct_le (a b : List ℝ) :
    |dotProduct a b| ≤ Real.sqrt (sumSq a) * Real.sqrt (sumSq b) := by
  have h := dotProduct_sq_le a b
  have habs : |dotProduct a b| = Real.sqrt ((dotProduct a b) ^ 2) :=
    (Real.sqrt_sq_eq_abs _).symm
  rw [habs, ← Real.sqrt_mul (sumSq_nonneg a)]
  exact Real.sqrt_le_sqrt h

/-- Unfolding of `AIService.cosineSimilarity` on two present vectors. -/
lemma cosineSimilarity_ai_some_some (a b : List ℝ) :
    AIService.cosineSimilarity (some a) (some b) =
      if a.length ≠ b.length then 0
      else if Real.sqrt (sumSq a) * Real.sqrt (sumSq b) = 0 then 0
      else dotProduct a b / (Real.sqrt (sumSq a) * Real.sqrt (sumSq b)) := rfl

/-- Unfolding of `GCPService.cosineSimilarity` on two present vectors. -/
lemma cosineSimilarity_gcp_some_some (a b : List ℝ) :
    GCPService.cosineSimilarity (some a) (some b) =
      if a.length ≠ b.length then some 0
      else if Real.sqrt (sumSq a) * Real.sqrt (sumSq b) = 0 then none
      else some (dotProduct a b / (Real.sqrt (sumSq a) * Real.sqrt (sumSq b))) := rfl

/-- When the denominator is nonzero, the cosine quotient has absolute
value at most 1 (Cauchy-Schwarz). -/
lemma cos_quotient_abs_le_one (a b : List ℝ)
    (hden : Real.sqrt (sumSq a) * Real.sqrt (sumSq b) ≠ 0) :
    |dotProduct a b / (Real.sqrt (sumSq a) * Real.sqrt (sumSq b))| ≤ 1 := by
  have hnn : 0 ≤ Real.sqrt (sumSq a) * Real.sqrt (sumSq b) :=
    mul_nonneg (Real.sqrt_nonneg _) (Real.sqrt_nonneg _)
  have hpos : 0 < Real.sqrt (sumSq a) * Real.sqrt (sumSq b) :=
    lt_of_le_of_ne hnn (Ne.symm hden)
  rw [abs_div, abs_of_pos hpos, div_le_one hpos]
  exact abs_dotProduct_le a b

/-! ### Evaluation of the similarity on concrete inputs -/

lemma sumSq_pair (x y : ℝ) : sumSq [x, y] = x * x + y * y := by
  simp [sumSq]

lemma dotProduct_pair (x1 y1 x2 y2 : ℝ) :
    dotProduct [x1, y1] [x2, y2] = x1 * x2 + y1 * y2 := by
  simp [dotProduct]

/-- Against the query embedding `[1, 0]`, the candidate embedding `embC c`
scores exactly `c` in both variants. -/
lemma cos_eval_unit (c : ℝ) (h1 : c * c ≤ 1) :
    AIService.cosineSimilarity (some [1, 0]) (some (embC c)) = c ∧
    GCPService.cosineSimilarity (some [1, 0]) (some (embC c)) = some c := by
  have hc : (0 : ℝ) ≤ 1 - c * c := by linarith
  have hs : Real.sqrt (1 - c * c) * Real.sqrt (1 - c * c) = 1 - c * c :=
    Real.mul_self_sqrt hc
  have hA : sumSq [(1 : ℝ), 0] = 1 := by norm_num [sumSq_pair]
  have hB : sumSq (embC c) = 1 := by rw [embC, sumSq_pair, hs]; ring
  have hdot : dotProduct [(1 : ℝ), 0] (embC c) = c := by
    rw [embC, dotProduct_pair]; ring
  have hlen : ¬(([(1 : ℝ), 0] : List ℝ).length ≠ (embC c).length) := by simp [embC]
  constructor
  · rw [cosineSimilarity_ai_some_some, if_neg hlen, hA, hB, Real.sqrt_one]
    norm_num [hdot]
  · rw [cosineSimilarity_gcp_some_some, if_neg hlen, hA, hB, Real.sqrt_one]
    norm_num [hdot]

/-- Against the query `[1, 0]`, the candidate `[3, 4]` scores `3 / 5` in
the GCPService variant. -/
lemma cos_eval_mid :
    GCPService.cosineSimilarity (some [(1 : ℝ), 0]) (some [3, 4]) = some (3 / 5) := by
  have h25 : Real.sqrt (25 : ℝ) = 5 := by
    rw [show (25 : ℝ) = 5 ^ 2 by norm_num, Real.sqrt_sq (by norm_num : (0 : ℝ) ≤ 5)]
  have hA : sumSq [(1 : ℝ), 0] = 1 := by norm_num [sumSq_pair]
  have hB : sumSq [(3 : ℝ), 4] = 25 := by norm_num [sumSq_pair]
  have hdot : dotProduct [(1 : ℝ), 0] [3, 4] = 3 := by norm_num [dotProduct_pair]
  rw [cosineSimilarity_gcp_some_some, if_neg (by norm_num), hA, hB,
    Real.sqrt_one, h25]
  norm_num [hdot]

/-- Against the query `[1, 0]`, the zero-norm candidate `[0, 0]` yields
`NaN` in the GCPService variant. -/
lemma cos_eval_zero_norm :
    GCPService.cosineSimilarity (some [(1 : ℝ), 0]) (some [0, 0]) = none := by
  have hB : sumSq [(0 : ℝ), 0] = 0 := by norm_num [sumSq_pair]
  rw [cosineSimilarity_gcp_some_some, if_neg (by norm_num), hB, Real.sqrt_zero]
  simp

/-- Against the query `[1, 0]`, the candidate `[1, 0]` scores `1` in the
GCPService variant. -/
lemma cos_eval_top :
    GCPService.cosineSimilarity (some [(1 : ℝ), 0]) (some [1, 0]) = some 1 := by
  have hA : sumSq [(1 : ℝ), 0] = 1 := by norm_num [sumSq_pair]
  have hdot : dotProduct [(1 : ℝ), 0] [1, 0] = 1 := by norm_num [dotProduct_pair]
  rw [cosineSimilarity_gcp_some_some, if_neg (by norm_num), hA, Real.sqrt_one]
  norm_num [hdot]

/-- One-dimensional sanity value: `[1]` against `[1]` scores `1` in both
variants. -/
lemma cos_eval_one_dim :
    AIService.cosineSimilarity (some [(1 : ℝ)]) (some [1]) = 1 ∧
    GCPService.cosineSimilarity (some [(1 : ℝ)]) (some [1]) = some 1 := by
  have hA : sumSq [(1 : ℝ)] = 1 := by norm_num [sumSq]
  have hdot : dotProduct [(1 : ℝ)] [1] = 1 := by norm_num [dotProduct]
  constructor
  · rw [cosineSimilarity_ai_some_some, if_neg (by norm_num), hA, Real.sqrt_one]
    norm_num [hdot]
  · rw [cosineSimilarity_gcp_some_some, if_neg (by norm_num), hA, Real.sqrt_one]
    norm_num [hdot]

/-! ### Claim C7 -/

/-- C7: for every pair of (possibly absent) vectors, `cosineSimilarity`
is symmetric in both service variants; it is a pure function of its two
arguments (modelled as a mathematical function, with no state). -/
theorem C7_symmetry_theorem (a b : Option (List ℝ)) :
    AIService.cosineSimilarity a b = AIService.cosineSimilarity b a ∧
    GCPService.cosineSimilarity a b = GCPService.cosineSimilarity b a := by
  cases a with
  | none => cases b <;> exact ⟨rfl, rfl⟩
  | some va =>
    cases b with
    | none => exact ⟨rfl, rfl⟩
    | some vb =>
      by_cases hl : va.length = vb.length
      · have hab : ¬(va.length ≠ vb.length) := by simp [hl]
        have hba : ¬(vb.length ≠ va.length) := by simp [hl]
        constructor
        · rw [cosineSimilarity_ai_some_some, cosineSimilarity_ai_some_some,
            if_neg hab, if_neg hba, dotProduct_comm vb va,
            mul_comm (Real.sqrt (sumSq vb))]
        · rw [cosineSimilarity_gcp_some_some, cosineSimilarity_gcp_some_some,
            if_neg hab, if_neg hba, dotProduct_comm vb va,
            mul_comm (Real.sqrt (sumSq vb))]
      · constructor
        · rw [cosineSimilarity_ai_some_some, cosineSimilarity_ai_some_some,
            if_pos hl, if_pos (fun h => hl h.symm)]
        · rw [cosineSimilarity_gcp_some_some, cosineSimilarity_gcp_some_some,
            if_pos hl, if_pos (fun h => hl h.symm)]

/-! ### Claim C2 -/

/-- C2 (amended): for equal-length present vectors where either norm is
zero, the AIService variant returns `0` thanks to its
`denominator === 0` guard; the GCPService variant, which lacks the guard,
divides zero by zero and yields `NaN` (modelled `none`) instead of `0`. -/
theorem C2_zero_norm_theorem (a b : List ℝ) (hlen : a.length = b.length)
    (h : sumSq a = 0 ∨ sumSq b = 0) :
    AIService.cosineSimilarity (some a) (some b) = 0 ∧
    GCPService.cosineSimilarity (some a) (some b) = none := by
  have hden : Real.sqrt (sumSq a) * Real.sqrt (sumSq b) = 0 := by
    rcases h with h | h <;> rw [h, Real.sqrt_zero] <;> simp
  exact ⟨by rw [cosineSimilarity_ai_some_some, if_neg (by simp [hlen]), if_pos hden],
    by rw [cosineSimilarity_gcp_some_some, if_neg (by simp [hlen]), if_pos hden]⟩

/-- C2 counterexample: the zero-norm vector `[0]` against `[1]` makes the
GCPService variant produce `NaN` (`none`), not the number `0` that the
claim promises for every implementation of `cosineSimilarity`. -/
theorem C2_zero_norm_counterexample :
    sumSq [(0 : ℝ)] = 0 ∧
    GCPService.cosineSimilarity (some [(0 : ℝ)]) (some [1]) = none := by
  have h0 : sumSq [(0 : ℝ)] = 0 := by norm_num [sumSq]
  refine ⟨h0, ?_⟩
  rw [cosineSimilarity_gcp_some_some, if_neg (by norm_num), h0, Real.sqrt_zero]
  simp

/-- C2 witness: the amended theorem applied at `a = [0]`, `b = [1]`. -/
theorem C2_zero_norm_witness :
    ([(0 : ℝ)].length = [(1 : ℝ)].length ∧ sumSq [(0 : ℝ)] = 0) ∧
    (AIService.cosineSimilarity (some [(0 : ℝ)]) (some [1]) = 0 ∧
      GCPService.cosineSimilarity (some [(0 : ℝ)]) (some [1]) = none) := by
  have h0 : sumSq [(0 : ℝ)] = 0 := by norm_num [sumSq]
  exact ⟨⟨rfl, h0⟩, C2_zero_norm_theorem [0] [1] rfl (Or.inl h0)⟩

/-! ### Claim C6 -/

/-- C6 (amended): on an absent vector, or present vectors of different
lengths, both variants return the number `0` and no error; the AIService
variant also returns `0` when either present vector is empty.  But on two
present EMPTY vectors (equal lengths, zero norms) the GCPService variant
does not return `0`: it divides zero by zero and yields `NaN` (`none`). -/
theorem C6_degenerate_theorem :
    (∀ b, AIService.cosineSimilarity none b = 0) ∧
    (∀ a, AIService.cosineSimilarity a none = 0) ∧
    (∀ a b : List ℝ, (a = [] ∨ b = [] ∨ a.length ≠ b.length) →
      AIService.cosineSimilarity (some a) (some b) = 0) ∧
    (∀ b, GCPService.cosineSimilarity none b = some 0) ∧
    (∀ a, GCPService.cosineSimilarity a none = some 0) ∧
    (∀ a b : List ℝ, a.length ≠ b.length →
      GCPService.cosineSimilarity (some a) (some b) = some 0) ∧
    GCPService.cosineSimilarity (some ([] : List ℝ)) (some []) = none := by
  refine ⟨?_, ?_, ?_, ?_, ?_, ?_, ?_⟩
  · intro b; cases b <;> rfl
  · intro a; cases a <;> rfl
  · intro a b h
    by_cases hl : a.length = b.length
    · have hden : Real.sqrt (sumSq a) * Real.sqrt (sumSq b) = 0 := by
        rcases h with rfl | rfl | hne
        · simp [sumSq]
        · simp [sumSq]
        · exact absurd hl hne
      rw [cosineSimilarity_ai_some_some, if_neg (by simp [hl]), if_pos hden]
    · rw [cosineSimilarity_ai_some_some, if_pos hl]
  · intro b; cases b <;> rfl
  · intro a; cases a <;> rfl
  · intro a b h
    rw [cosineSimilarity_gcp_some_some, if_pos h]
  · rw [cosineSimilarity_gcp_some_some, if_neg (by simp), if_pos (by simp [sumSq])]

/-- C6 counterexample: two present empty vectors.  The claim promises `0`
for every such degenerate input; the GCPService variant returns `NaN`
(`none`) instead of the number `0`. -/
theorem C6_degenerate_counterexample :
    (([] : List ℝ) = ([] : List ℝ)) ∧
    GCPService.cosineSimilarity (some ([] : List ℝ)) (some []) = none := by
  refine ⟨rfl, ?_⟩
  rw [cosineSimilarity_gcp_some_some, if_neg (by simp), if_pos (by simp [sumSq])]

/-- C6 witness: the amended theorem applied at concrete degenerate
inputs: `[]` vs `[1]` (AIService) and `[1, 2]` vs `[3]` (GCPService). -/
theorem C6_degenerate_witness :
    AIService.cosineSimilarity (some ([] : List ℝ)) (some [1]) = 0 ∧
    GCPService.cosineSimilarity (some [(1 : ℝ), 2]) (some [3]) = some 0 := by
  obtain ⟨_, _, h3, _, _, h6, _⟩ := C6_degenerate_theorem
  exact ⟨h3 [] [1] (Or.inl rfl), h6 [1, 2] [3] (by norm_num)⟩

/-! ### Claim C8 -/

/-- C8 (amended): every actual number produced by `cosineSimilarity` lies
in `[-1, 1]` (Cauchy-Schwarz): the AIService variant always produces such
a number; the GCPService variant does whenever its result is a number at
all — on present equal-length vectors with a zero norm it instead yields
`NaN` (`none`), which is no score in `[-1, 1]`. -/
theorem C8_range_theorem :
    (∀ a b : Option (List ℝ),
      -1 ≤ AIService.cosineSimilarity a b ∧ AIService.cosineSimilarity a b ≤ 1) ∧
    (∀ a b : Option (List ℝ), ∀ x : ℝ,
      GCPService.cosineSimilarity a b = some x → -1 ≤ x ∧ x ≤ 1) := by
  constructor
  · intro a b
    cases a with
    | none => cases b <;> norm_num [AIService.cosineSimilarity]
    | some va =>
      cases b with
      | none => norm_num [AIService.cosineSimilarity]
      | some vb =>
        rw [cosineSimilarity_ai_some_some]
        split_ifs with h1 h2
        · norm_num
        · norm_num
        · exact abs_le.1 (cos_quotient_abs_le_one va vb h2)
  · intro a b x h
    cases a with
    | none =>
      cases b <;>
        (simp only [GCPService.cosineSimilarity, Option.some.injEq] at h;
          constructor <;> norm_num [← h])
    | some va =>
      cases b with
      | none =>
        simp only [GCPService.cosineSimilarity, Option.some.injEq] at h
        constructor <;> norm_num [← h]
      | some vb =>
        rw [cosineSimilarity_gcp_some_some] at h
        by_cases h1 : va.length ≠ vb.length
        · rw [if_pos h1, Option.some.injEq] at h
          constructor <;> norm_num [← h]
        · rw [if_neg h1] at h
          by_cases h2 : Real.sqrt (sumSq va) * Real.sqrt (sumSq vb) = 0
          · rw [if_pos h2] at h
            exact absurd h (by simp)
          · rw [if_neg h2, Option.some.injEq] at h
            rw [← h]
            exact abs_le.1 (cos_quotient_abs_le_one va vb h2)

/-- C8 counterexample: the equal-length pair `[0]`, `[0]`.  The claim
promises a score in `[-1, 1]` for every equal-length pair, but the
GCPService variant produces `NaN` (`none`) — no score at all. -/
theorem C8_range_counterexample :
    [(0 : ℝ)].length = [(0 : ℝ)].length ∧
    GCPService.cosineSimilarity (some [(0 : ℝ)]) (some [0]) = none := by
  refine ⟨rfl, ?_⟩
  rw [cosineSimilarity_gcp_some_some, if_neg (by norm_num)]
  norm_num [sumSq]

/-- C8 witness: the amended theorem applied at `[1]`, `[1]`, where the
GCPService variant produces the number `1`. -/
theorem C8_range_witness :
    (-1 ≤ AIService.cosineSimilarity (some [(1 : ℝ)]) (some [1]) ∧
      AIService.cosineSimilarity (some [(1 : ℝ)]) (some [1]) ≤ 1) ∧
    GCPService.cosineSimilarity (some [(1 : ℝ)]) (some [1]) = some 1 ∧
    (-1 ≤ (1 : ℝ) ∧ (1 : ℝ) ≤ 1) := by
  have hg := cos_eval_one_dim.2
  exact ⟨C8_range_theorem.1 (some [1]) (some [1]), hg,
    C8_range_theorem.2 (some [1]) (some [1]) 1 hg⟩

/-! ### Claim C10 -/

/-- C10 (amended): the GCPService variant refines the AIService variant
wherever it produces a number — the numbers agree — and wherever it
produces `NaN` (`none`) the AIService variant produces `0`.  The two
implementations are therefore NOT extensionally equal: they differ
exactly on present equal-length inputs with a zero norm. -/
theorem C10_refinement_theorem (a b : Option (List ℝ)) :
    (∀ x : ℝ, GCPService.cosineSimilarity a b = some x →
      AIService.cosineSimilarity a b = x) ∧
    (GCPService.cosineSimilarity a b = none → AIService.cosineSimilarity a b = 0) := by
  constructor
  · intro x h
    cases a with
    | none =>
      cases b <;>
        (simp only [GCPService.cosineSimilarity, Option.some.injEq] at h;
          simp [AIService.cosineSimilarity, ← h])
    | some va =>
      cases b with
      | none =>
        simp only [GCPService.cosineSimilarity, Option.some.injEq] at h
        simp [AIService.cosineSimilarity, ← h]
      | some vb =>
        rw [cosineSimilarity_gcp_some_some] at h
        rw [cosineSimilarity_ai_some_some]
        by_cases h1 : va.length ≠ vb.length
        · rw [if_pos h1] at h
          rw [if_pos h1]
          exact Option.some.inj h
        · rw [if_neg h1] at h
          rw [if_neg h1]
          by_cases h2 : Real.sqrt (sumSq va) * Real.sqrt (sumSq vb) = 0
          · rw [if_pos h2] at h
            exact absurd h (by simp)
          · rw [if_neg h2] at h
            rw [if_neg h2]
            exact Option.some.inj h
  · intro h
    cases a with
    | none => cases b <;> exact Option.noConfusion h
    | some va =>
      cases b with
      | none => exact Option.noConfusion h
      | some vb =>
        rw [cosineSimilarity_gcp_some_some] at h
        rw [cosineSimilarity_ai_some_some]
        by_cases h1 : va.length ≠ vb.length
        · rw [if_pos h1] at h
          exact absurd h (by simp)
        · rw [if_neg h1] at h
          rw [if_neg h1]
          by_cases h2 : Real.sqrt (sumSq va) * Real.sqrt (sumSq vb) = 0
          · rw [if_pos h2]
          · rw [if_neg h2] at h
            exact absurd h (by simp)

/-- C10 counterexample: at the equal-length zero-norm pair `[0]`, `[0]`
the AIService variant returns the number `0` while the GCPService variant
returns `NaN` (`none`) — the two implementations disagree. -/
theorem C10_refinement_counterexample :
    AIService.cosineSimilarity (some [(0 : ℝ)]) (some [0]) = 0 ∧
    GCPService.cosineSimilarity (some [(0 : ℝ)]) (some [0]) = none := by
  constructor
  · rw [cosineSimilarity_ai_some_some, if_neg (by norm_num)]
    norm_num [sumSq]
  · rw [cosineSimilarity_gcp_some_some, if_neg (by norm_num)]
    norm_num [sumSq]

/-- C10 witness: the amended theorem applied at `[1]`, `[1]`, where the
GCPService variant produces `some 1` and the AIService variant `1`. -/
theorem C10_refinement_witness :
    GCPService.cosineSimilarity (some [(1 : ℝ)]) (some [1]) = some 1 ∧
    AIService.cosineSimilarity (some [(1 : ℝ)]) (some [1]) = 1 := by
  have hg := cos_eval_one_dim.2
  exact ⟨hg, (C10_refinement_theorem (some [1]) (some [1])).1 1 hg⟩

/-! ### Unfolding lemmas for the search pipelines -/

lemma AIService.searchSimilarBugs_none (bugs : List StoredBug) :
    AIService.searchSimilarBugs none bugs = [] := rfl

lemma AIService.searchSimilarBugs_some (q : List ℝ) (bugs : List StoredBug) :
    AIService.searchSimilarBugs (some q) bugs =
      if q.length = 0 then []
      else
        (((bugs.map (AIService.scoreBug q)).insertionSort AIService.simGE).take 3).filter
          fun item => decide ((0.3 : ℝ) < item.2) := rfl

lemma GCPService.searchSimilarBugs_def (qe : Option (List ℝ)) (bugs : List StoredBug) :
    GCPService.searchSimilarBugs qe bugs =
      ((bugs.map (GCPService.scoreBug qe)).insertionSort GCPService.simGEOpt).take 3 := rfl

/-- With an empty query embedding, every candidate of the GCPService
variant scores the number `0` (the length-mismatch guard inside
`cosineSimilarity` fires for every nonempty candidate embedding). -/
lemma GCPService.scoreBug_empty_query (b : StoredBug) :
    GCPService.scoreBug (some []) b = (b, some 0) := by
  cases hemb : b.embedding with
  | none => simp [GCPService.scoreBug, hemb]
  | some e =>
    by_cases he : e.length = 0
    · simp [GCPService.scoreBug, hemb, he]
    · simp only [GCPService.scoreBug, hemb, if_neg he]
      rw [cosineSimilarity_gcp_some_some, if_pos (fun hh => he hh.symm)]

/-! ### Claim C3 -/

/-- C3 (amended): on a failed or empty query embedding the AIService
variant returns the empty list at once and raises no error; the
GCPService variant has no such early return: it scores every candidate
`0` (via the length-mismatch guard) and still returns the first up-to-3
candidates, with similarity `0`, rather than the empty list.  Neither
variant throws. -/
theorem C3_empty_query_theorem :
    (∀ bugs, AIService.searchSimilarBugs none bugs = []) ∧
    (∀ bugs, AIService.searchSimilarBugs (some []) bugs = []) ∧
    (∀ bugs, GCPService.searchSimilarBugs (some []) bugs =
      (bugs.map fun b => (b, some (0 : ℝ))).take 3) := by
  refine ⟨fun bugs => rfl, fun bugs => rfl, fun bugs => ?_⟩
  have hmap : bugs.map (GCPService.scoreBug (some [])) = bugs.map fun b => (b, some 0) :=
    congrArg (fun f => List.map f bugs) (funext GCPService.scoreBug_empty_query)
  have hsort : (bugs.map fun b => (b, some (0 : ℝ))).insertionSort GCPService.simGEOpt =
      bugs.map fun b => (b, some 0) := by
    refine insertionSort_eq_self_of_total _ _ ?_
    intro a ha b hb
    rcases List.mem_map.1 ha with ⟨x, _, rfl⟩
    rcases List.mem_map.1 hb with ⟨y, _, rfl⟩
    simp [GCPService.simGEOpt]
  rw [GCPService.searchSimilarBugs_def, hmap, hsort]

/-- C3 counterexample: with an empty query embedding and one candidate
carrying a nonempty embedding, the GCPService variant returns a one-match
list (similarity `0`), not the empty list the claim promises. -/
theorem C3_empty_query_counterexample :
    GCPService.searchSimilarBugs (some []) [bugUnit] = [(bugUnit, some 0)] ∧
    (GCPService.searchSimilarBugs (some []) [bugUnit]).length = 1 := by
  have hmain : GCPService.searchSimilarBugs (some []) [bugUnit] = [(bugUnit, some 0)] := by
    rw [GCPService.searchSimilarBugs_def, List.map_cons, List.map_nil,
      GCPService.scoreBug_empty_query]
    rfl
  exact ⟨hmain, by rw [hmain]; rfl⟩

/-! ### Claim C4 -/

/-- C4: in the AIService variant (the one with the relevance-threshold
policy), every returned match has similarity strictly greater than
`0.3`. -/
theorem C4_threshold_theorem (qe : Option (List ℝ)) (bugs : List StoredBug)
    (p : StoredBug × ℝ) (hp : p ∈ AIService.searchSimilarBugs qe bugs) :
    (0.3 : ℝ) < p.2 := by
  cases qe with
  | none => exact absurd hp (by simp [AIService.searchSimilarBugs_none])
  | some q =>
    rw [AIService.searchSimilarBugs_some] at hp
    by_cases hq : q.length = 0
    · rw [if_pos hq] at hp
      exact absurd hp (by simp)
    · rw [if_neg hq] at hp
      exact of_decide_eq_true (List.mem_filter.1 hp).2

/-! ### Concrete evaluation of the search pipelines -/

/-- The one-candidate search of the AIService variant on matching
one-dimensional unit vectors returns that candidate with similarity 1. -/
lemma searchSimilarBugs_unit_ai :
    AIService.searchSimilarBugs (some [1]) [bugUnit] = [(bugUnit, 1)] := by
  have hs : AIService.scoreBug [1] bugUnit = (bugUnit, 1) := by
    simp only [AIService.scoreBug, bugUnit, mkBug]
    norm_num [cos_eval_one_dim.1]
  rw [AIService.searchSimilarBugs_some, if_neg (by norm_num), List.map_cons, List.map_nil, hs]
  rw [show ([(bugUnit, (1 : ℝ))].insertionSort AIService.simGE) = [(bugUnit, 1)] from rfl]
  rw [List.take_of_length_le (by norm_num)]
  simp only [List.filter_cons, List.filter_nil, decide_eq_true_eq]
  norm_num

/-- Scoring a candidate that carries the embedding `embC c` against the
query `[1, 0]`: AIService variant. -/
lemma scoreBug_ai_embC (bug : StoredBug) (c : ℝ) (hc : c * c ≤ 1)
    (hb : bug.embedding = some (embC c)) :
    AIService.scoreBug [1, 0] bug = (bug, c) := by
  simp only [AIService.scoreBug, hb]
  rw [if_neg (by simp [embC]), (cos_eval_unit c hc).1]

/-- Scoring a candidate that carries the embedding `embC c` against the
query `[1, 0]`: GCPService variant. -/
lemma scoreBug_gcp_embC (bug : StoredBug) (c : ℝ) (hc : c * c ≤ 1)
    (hb : bug.embedding = some (embC c)) :
    GCPService.scoreBug (some [1, 0]) bug = (bug, some c) := by
  simp only [GCPService.scoreBug, hb]
  rw [if_neg (by simp [embC]), (cos_eval_unit c hc).2]

/-- The spec's five-candidate scenario, AIService variant: the scored list
is already in descending order, the top 3 are kept, and all three survive
the `> 0.3` filter (`0.35 > 0.3`). -/
lemma searchFive_ai :
    AIService.searchSimilarBugs (some [1, 0]) bugsFive =
      [(bug09, 9 / 10), (bug08, 8 / 10), (bug035, 35 / 100)] := by
  have h09 : AIService.scoreBug [1, 0] bug09 = (bug09, 9 / 10) :=
    scoreBug_ai_embC _ _ (by norm_num) rfl
  have h08 : AIService.scoreBug [1, 0] bug08 = (bug08, 8 / 10) :=
    scoreBug_ai_embC _ _ (by norm_num) rfl
  have h035 : AIService.scoreBug [1, 0] bug035 = (bug035, 35 / 100) :=
    scoreBug_ai_embC _ _ (by norm_num) rfl
  have h02 : AIService.scoreBug [1, 0] bug02 = (bug02, 2 / 10) :=
    scoreBug_ai_embC _ _ (by norm_num) rfl
  have h01 : AIService.scoreBug [1, 0] bug01 = (bug01, 1 / 10) :=
    scoreBug_ai_embC _ _ (by norm_num) rfl
  rw [AIService.searchSimilarBugs_some, if_neg (by norm_num)]
  rw [show bugsFive = [bug09, bug08, bug035, bug02, bug01] from rfl]
  rw [List.map_cons, List.map_cons, List.map_cons, List.map_cons, List.map_cons, List.map_nil,
    h09, h08, h035, h02, h01]
  have hsorted : List.Sorted AIService.simGE
      [(bug09, (9 : ℝ) / 10), (bug08, 8 / 10), (bug035, 35 / 100), (bug02, 2 / 10),
        (bug01, 1 / 10)] := by
    simp only [List.sorted_cons, List.mem_cons, List.mem_singleton, AIService.simGE]
    norm_num
  rw [List.Sorted.insertionSort_eq hsorted]
  rw [show List.take 3
      [(bug09, (9 : ℝ) / 10), (bug08, 8 / 10), (bug035, 35 / 100), (bug02, 2 / 10),
        (bug01, 1 / 10)] =
      [(bug09, (9 : ℝ) / 10), (bug08, 8 / 10), (bug035, 35 / 100)] from rfl]
  simp only [List.filter_cons, List.filter_nil, decide_eq_true_eq]
  norm_num

/-- The spec's five-candidate scenario, GCPService variant: the scored
list is already in descending order and the top 3 are kept (no filter in
this variant). -/
lemma searchFive_gcp :
    GCPService.searchSimilarBugs (some [1, 0]) bugsFive =
      [(bug09, some (9 / 10)), (bug08, some (8 / 10)), (bug035, some (35 / 100))] := by
  have h09 : GCPService.scoreBug (some [1, 0]) bug09 = (bug09, some (9 / 10)) :=
    scoreBug_gcp_embC _ _ (by norm_num) rfl
  have h08 : GCPService.scoreBug (some [1, 0]) bug08 = (bug08, some (8 / 10)) :=
    scoreBug_gcp_embC _ _ (by norm_num) rfl
  have h035 : GCPService.scoreBug (some [1, 0]) bug035 = (bug035, some (35 / 100)) :=
    scoreBug_gcp_embC _ _ (by norm_num) rfl
  have h02 : GCPService.scoreBug (some [1, 0]) bug02 = (bug02, some (2 / 10)) :=
    scoreBug_gcp_embC _ _ (by norm_num) rfl
  have h01 : GCPService.scoreBug (some [1, 0]) bug01 = (bug01, some (1 / 10)) :=
    scoreBug_gcp_embC _ _ (by norm_num) rfl
  rw [GCPService.searchSimilarBugs_def]
  rw [show bugsFive = [bug09, bug08, bug035, bug02, bug01] from rfl]
  rw [List.map_cons, List.map_cons, List.map_cons, List.map_cons, List.map_cons, List.map_nil,
    h09, h08, h035, h02, h01]
  have hsorted : List.Sorted GCPService.simGEOpt
      [(bug09, some ((9 : ℝ) / 10)), (bug08, some (8 / 10)), (bug035, some (35 / 100)),
        (bug02, some (2 / 10)), (bug01, some (1 / 10))] := by
    simp only [List.sorted_cons, List.mem_cons, List.mem_singleton, GCPService.simGEOpt]
    norm_num
  rw [List.Sorted.insertionSort_eq hsorted]
  rfl

/-- C4 witness: the theorem applied at the one-candidate search whose
single returned match has similarity `1 > 0.3`. -/
theorem C4_threshold_witness :
    (bugUnit, (1 : ℝ)) ∈ AIService.searchSimilarBugs (some [1]) [bugUnit] ∧
    (0.3 : ℝ) < 1 := by
  have hmem : (bugUnit, (1 : ℝ)) ∈ AIService.searchSimilarBugs (some [1]) [bugUnit] := by
    rw [searchSimilarBugs_unit_ai]
    exact List.mem_singleton.2 rfl
  exact ⟨hmem, C4_threshold_theorem (some [1]) [bugUnit] (bugUnit, 1) hmem⟩

/-! ### Claim C5 -/

/-- C5 counterexample: on the spec's five-candidate scenario (similarity
scores `0.9, 0.8, 0.35, 0.2, 0.1` against the query), the
threshold-enforcing AIService variant returns THREE matches — the `0.35`
match passes the strict `> 0.3` filter — not the two matches the claim
promises. -/
theorem C5_scenario_counterexample :
    AIService.searchSimilarBugs (some [1, 0]) bugsFive =
      [(bug09, 9 / 10), (bug08, 8 / 10), (bug035, 35 / 100)] ∧
    (AIService.searchSimilarBugs (some [1, 0]) bugsFive).length = 3 := by
  exact ⟨searchFive_ai, by rw [searchFive_ai]; rfl⟩

/-- C5 (amended): on the five-candidate scenario both variants return
exactly the first three matches in order (scores `0.9, 0.8, 0.35`): the
threshold changes nothing here because `0.35 > 0.3`. -/
theorem C5_scenario_theorem :
    AIService.searchSimilarBugs (some [1, 0]) bugsFive =
      [(bug09, 9 / 10), (bug08, 8 / 10), (bug035, 35 / 100)] ∧
    GCPService.searchSimilarBugs (some [1, 0]) bugsFive =
      [(bug09, some (9 / 10)), (bug08, some (8 / 10)), (bug035, some (35 / 100))] ∧
    (0.3 : ℝ) < 35 / 100 :=
  ⟨searchFive_ai, searchFive_gcp, by norm_num⟩

/-! ### Helper lemmas for Claim C1 -/

/-- An element may only be refused its place in front of another by the
AIService comparator when the similarities differ. -/
lemma simGE_neg_ne (a b : StoredBug × ℝ) (h : ¬ AIService.simGE a b) : a.2 ≠ b.2 := by
  intro he
  exact h he.ge

/-- An element may only be refused its place in front of another by the
GCPService comparator when the similarity keys differ (a `NaN` key always
ties). -/
lemma simGEOpt_neg_ne (a b : StoredBug × Option ℝ) (h : ¬ GCPService.simGEOpt a b) :
    a.2 ≠ b.2 := by
  intro he
  apply h
  cases ha : a.2 with
  | none => simp [GCPService.simGEOpt, ha]
  | some x =>
    cases hb : b.2 with
    | none => simp [GCPService.simGEOpt, ha, hb]
    | some y =>
      have hxy : x = y := by
        rw [ha, hb] at he
        exact Option.some.inj he
      simp [GCPService.simGEOpt, ha, hb, hxy]

/-- A list of scored pairs all of whose keys are actual numbers is the
image of a real-keyed list under the key injection `some`. -/
lemma map_some_getD (s : List (StoredBug × Option ℝ)) (h : ∀ p ∈ s, p.2 ≠ none) :
    (s.map fun p => ((p.1, p.2.getD 0) : StoredBug × ℝ)).map (fun p => (p.1, some p.2)) = s := by
  induction s with
  | nil => rfl
  | cons x s ih =>
    obtain ⟨b, k⟩ := x
    cases k with
    | none => exact absurd rfl (h (b, none) (List.mem_cons_self _ _))
    | some v =>
      simp only [List.map_cons, Option.getD_some]
      rw [ih fun p hp => h p (List.mem_cons_of_mem _ hp)]

/-! ### Claim C1 -/

/-- C1 (amended): the AIService variant always returns at most 3 matches,
in non-increasing similarity order, with ties kept in the original
relative order of the scored candidates (filter-stability).  The
GCPService variant always returns at most 3 matches and is tie-stable in
the same sense; its output is in non-increasing similarity order whenever
every computed similarity is an actual number — a `NaN` similarity
(unguarded zero-norm division) ties with everything in the ECMAScript
comparator and can break the ordering of the numeric scores around it. -/
theorem C1_rank_theorem :
    (∀ qe bugs,
      (AIService.searchSimilarBugs qe bugs).length ≤ 3 ∧
      (AIService.searchSimilarBugs qe bugs).Pairwise (fun p q => q.2 ≤ p.2)) ∧
    (∀ (qe : Option (List ℝ)) (bugs : List StoredBug),
      (GCPService.searchSimilarBugs qe bugs).length ≤ 3) ∧
    (∀ qe bugs, (∀ p ∈ bugs.map (GCPService.scoreBug qe), p.2 ≠ none) →
      (GCPService.searchSimilarBugs qe bugs).Pairwise
        (fun p q => ∀ x y : ℝ, p.2 = some x → q.2 = some y → y ≤ x)) ∧
    (∀ (q : List ℝ) (bugs : List StoredBug) (v : ℝ),
      List.Sublist
        ((AIService.searchSimilarBugs (some q) bugs).filter (fun p => p.2 = v))
        ((bugs.map (AIService.scoreBug q)).filter (fun p => p.2 = v))) ∧
    (∀ qe bugs (v : Option ℝ),
      List.Sublist
        ((GCPService.searchSimilarBugs qe bugs).filter (fun p => p.2 = v))
        ((bugs.map (GCPService.scoreBug qe)).filter (fun p => p.2 = v))) := by
  refine ⟨?_, ?_, ?_, ?_, ?_⟩
  · intro qe bugs
    cases qe with
    | none =>
      rw [AIService.searchSimilarBugs_none]
      exact ⟨by norm_num, List.Pairwise.nil⟩
    | some q =>
      rw [AIService.searchSimilarBugs_some]
      by_cases hq : q.length = 0
      · rw [if_pos hq]
        exact ⟨by norm_num, List.Pairwise.nil⟩
      · rw [if_neg hq]
        have hsub : List.Sublist
            ((((bugs.map (AIService.scoreBug q)).insertionSort AIService.simGE).take 3).filter
                fun item => decide ((0.3 : ℝ) < item.2))
            ((bugs.map (AIService.scoreBug q)).insertionSort AIService.simGE) :=
          (List.filter_sublist _).trans (List.take_sublist _ _)
        constructor
        · calc ((((bugs.map (AIService.scoreBug q)).insertionSort AIService.simGE).take 3).filter
                fun item => decide ((0.3 : ℝ) < item.2)).length
              ≤ (((bugs.map (AIService.scoreBug q)).insertionSort AIService.simGE).take 3).length :=
                List.length_filter_le _ _
            _ ≤ 3 := by
                rw [List.length_take]
                exact min_le_left _ _
        · exact List.Pairwise.sublist hsub (List.sorted_insertionSort AIService.simGE _)
  · intro qe bugs
    rw [GCPService.searchSimilarBugs_def, List.length_take]
    exact min_le_left _ _
  · intro qe bugs h
    have hre : (((bugs.map (GCPService.scoreBug qe)).map
          fun p => ((p.1, p.2.getD 0) : StoredBug × ℝ)).map (fun p => (p.1, some p.2))) =
        bugs.map (GCPService.scoreBug qe) :=
      map_some_getD _ h
    have hmap := List.map_insertionSort AIService.simGE GCPService.simGEOpt
      (fun p : StoredBug × ℝ => (p.1, some p.2))
      ((bugs.map (GCPService.scoreBug qe)).map fun p => ((p.1, p.2.getD 0) : StoredBug × ℝ))
      (fun a _ b _ => Iff.rfl)
    rw [hre] at hmap
    rw [GCPService.searchSimilarBugs_def]
    refine List.Pairwise.sublist (List.take_sublist _ _) ?_
    rw [← hmap, List.pairwise_map]
    refine List.Pairwise.imp ?_ (List.sorted_insertionSort AIService.simGE _)
    intro a b hab x y hx hy
    obtain rfl : x = a.2 := (Option.some.inj hx).symm
    obtain rfl : y = b.2 := (Option.some.inj hy).symm
    exact hab
  · intro q bugs v
    rw [AIService.searchSimilarBugs_some]
    by_cases hq : q.length = 0
    · rw [if_pos hq]
      exact List.nil_sublist _
    · rw [if_neg hq]
      have hsub : List.Sublist
          ((((bugs.map (AIService.scoreBug q)).insertionSort AIService.simGE).take 3).filter
              fun item => decide ((0.3 : ℝ) < item.2))
          ((bugs.map (AIService.scoreBug q)).insertionSort AIService.simGE) :=
        (List.filter_sublist _).trans (List.take_sublist _ _)
      have h2 := hsub.filter (fun p => decide (p.2 = v))
      rw [filter_key_insertionSort AIService.simGE Prod.snd simGE_neg_ne v] at h2
      exact h2
  · intro qe bugs v
    rw [GCPService.searchSimilarBugs_def]
    have hsub := (List.take_sublist 3
      ((bugs.map (GCPService.scoreBug qe)).insertionSort GCPService.simGEOpt)).filter
      (fun p => decide (p.2 = v))
    rw [filter_key_insertionSort GCPService.simGEOpt Prod.snd simGEOpt_neg_ne v] at hsub
    exact hsub

/-- C1 counterexample: in the GCPService variant, a candidate with a
zero-norm embedding produces a `NaN` similarity that ties with everything
in the sort comparator; around it, numeric scores stay out of order.
Here the returned similarity sequence is `[0.6, NaN, 1]`: the first
returned match scores `0.6` while the last scores `1 > 0.6`, so the
output is NOT in non-increasing similarity order. -/
theorem C1_rank_counterexample :
    (GCPService.searchSimilarBugs (some [1, 0]) [bugMid, bugZeroNorm, bugTop]).map
        (fun p => p.2) = [some (3 / 5), none, some 1] ∧
    (3 : ℝ) / 5 < 1 ∧
    ¬ (GCPService.searchSimilarBugs (some [1, 0]) [bugMid, bugZeroNorm, bugTop]).Pairwise
        (fun p q => ∀ x y : ℝ, p.2 = some x → q.2 = some y → y ≤ x) := by
  have hsMid : GCPService.scoreBug (some [1, 0]) bugMid = (bugMid, some (3 / 5)) := by
    simp only [GCPService.scoreBug, bugMid, mkBug]
    norm_num [cos_eval_mid]
  have hsZero : GCPService.scoreBug (some [1, 0]) bugZeroNorm = (bugZeroNorm, none) := by
    simp only [GCPService.scoreBug, bugZeroNorm, mkBug]
    norm_num [cos_eval_zero_norm]
  have hsTop : GCPService.scoreBug (some [1, 0]) bugTop = (bugTop, some 1) := by
    simp only [GCPService.scoreBug, bugTop, mkBug]
    norm_num [cos_eval_top]
  have e1 : [(bugTop, some (1 : ℝ))].orderedInsert GCPService.simGEOpt (bugZeroNorm, none) =
      [(bugZeroNorm, none), (bugTop, some 1)] := by
    simp only [List.orderedInsert]
    rw [if_pos (by exact trivial)]
  have e2 : [(bugZeroNorm, (none : Option ℝ)), (bugTop, some 1)].orderedInsert
        GCPService.simGEOpt (bugMid, some (3 / 5)) =
      [(bugMid, some (3 / 5)), (bugZeroNorm, none), (bugTop, some 1)] := by
    simp only [List.orderedInsert]
    rw [if_pos (by exact trivial)]
  have hmain : GCPService.searchSimilarBugs (some [1, 0]) [bugMid, bugZeroNorm, bugTop] =
      [(bugMid, some (3 / 5)), (bugZeroNorm, none), (bugTop, some 1)] := by
    rw [GCPService.searchSimilarBugs_def, List.map_cons, List.map_cons, List.map_cons,
      List.map_nil, hsMid, hsZero, hsTop]
    simp only [List.insertionSort, List.orderedInsert_nil]
    rw [e1, e2]
    rfl
  refine ⟨by rw [hmain]; rfl, by norm_num, ?_⟩
  intro hp
  rw [hmain] at hp
  rcases List.pairwise_cons.1 hp with ⟨h1, _⟩
  have h2 := h1 (bugTop, some 1) (by simp)
  have h15 : (1 : ℝ) ≤ 3 / 5 := h2 (3 / 5) 1 rfl rfl
  norm_num at h15

/-- C1 witness: the amended theorem applied at the one-candidate search,
whose GCPService similarity is the actual number `1` (no `NaN`). -/
theorem C1_rank_witness :
    (AIService.searchSimilarBugs (some [1]) [bugUnit]).length ≤ 3 ∧
    (∀ p ∈ [bugUnit].map (GCPService.scoreBug (some [1])), p.2 ≠ none) ∧
    (GCPService.searchSimilarBugs (some [1]) [bugUnit]).Pairwise
      (fun p q => ∀ x y : ℝ, p.2 = some x → q.2 = some y → y ≤ x) := by
  have hscore : GCPService.scoreBug (some [1]) bugUnit = (bugUnit, some 1) := by
    simp only [GCPService.scoreBug, bugUnit, mkBug]
    norm_num [cos_eval_one_dim.2]
  have hdef : ∀ p ∈ [bugUnit].map (GCPService.scoreBug (some [1])), p.2 ≠ none := by
    intro p hp
    rw [List.map_cons, List.map_nil, hscore] at hp
    rcases List.mem_singleton.1 hp with rfl
    simp
  exact ⟨(C1_rank_theorem.1 (some [1]) [bugUnit]).1, hdef,
    C1_rank_theorem.2.2.1 (some [1]) [bugUnit] hdef⟩

/-! ### Claim C9 -/

/-- C9: the context block passed to the solution-generation prompt has
exactly one entry per ranked match, in the same order as the input list
(the `i`-th entry renders the `i`-th match), and each entry contains that
match's title, description, stored solution, tags and similarity
percentage; the block is these entries joined by blank lines. -/
theorem C9_context_theorem {κ : Type} (fmt : κ → String) (l : List (StoredBug × κ)) :
    (buildContextEntries fmt l).length = l.length ∧
    (∀ i : Nat, ∀ h : i < l.length,
      (buildContextEntries fmt l)[i]? =
        some ("Bug " ++ toString (i + 1) ++ " (Similarity: " ++ fmt (l.get ⟨i, h⟩).2 ++ "%):" ++
          "\nTitle: " ++ (l.get ⟨i, h⟩).1.title ++
          "\nDescription: " ++ (l.get ⟨i, h⟩).1.description ++
          "\nSolution: " ++ (l.get ⟨i, h⟩).1.solution ++
          "\nTags: " ++ String.intercalate ", " (l.get ⟨i, h⟩).1.tags ++
          "\n---")) ∧
    buildContext fmt l = String.intercalate "\n\n" (buildContextEntries fmt l) := by
  refine ⟨?_, ?_, rfl⟩
  · simp [buildContextEntries]
  · intro i h
    simp only [buildContextEntries, List.getElem?_map, List.getElem?_enum,
      List.getElem?_eq_getElem h, Option.map_some']
    rfl

/-- C9 witness: the theorem applied to a one-match list with a constant
formatter. -/
theorem C9_context_witness :
    (0 : Nat) < 1 ∧
    (buildContextEntries (fun _ : Unit => "100.0") [(bugUnit, ())])[0]? =
      some ("Bug " ++ toString (0 + 1) ++ " (Similarity: " ++ "100.0" ++ "%):" ++
        "\nTitle: " ++ "unit" ++
        "\nDescription: " ++ "desc" ++
        "\nSolution: " ++ "sol" ++
        "\nTags: " ++ String.intercalate ", " ([] : List String) ++
        "\n---") := by
  refine ⟨Nat.zero_lt_one, ?_⟩
  exact (C9_context_theorem (fun _ : Unit => "100.0") [(bugUnit, ())]).2.1 0 Nat.zero_lt_one

end
